import Mathlib

/-!
Verification of the job-aggregation pipeline: a shallow embedding of the
fingerprint/dedup engine (`models.py`, `job_board_integration.py`), the date
normalizer (`scrapers.py`), the US-location classifier (`location_filter.py`),
the aggregation orchestrator (`aggregator.py`) and the cache-aside detail
layer (`job_board_integration.py`), together with theorems settling the
stated properties of each component.

Conventions of the embedding:
* Python strings are Lean `String`s; the repository only manipulates ASCII
  in the places the properties touch, so `str.lower()` is modelled by an
  ASCII lower-casing and `str.strip()` by trimming whitespace characters.
* `datetime` instants are `Int` seconds; `timedelta(days=n)` is `n * 86400`
  seconds and `timedelta(hours=n)` would be `n * 3600` seconds.
* The SQLAlchemy session is a `List` of rows in insertion order; committing
  is returning the updated list.
* A Python function that may raise is modelled with `Option`/`Except`.
-/

/-! ## ASCII string helpers (model of `str.lower`, `str.strip`, `in`) -/

/-- Model of Python `str.lower()` on one ASCII character. -/
def lowerChar (c : Char) : Char :=
  if 'A' ≤ c ∧ c ≤ 'Z' then Char.ofNat (c.toNat + 32) else c

/-- Model of Python `str.lower()` (ASCII fragment). -/
def pyLower (s : String) : String :=
  ⟨s.data.map lowerChar⟩

/-- Model of Python `str.strip()`: drop whitespace from both ends. -/
def pyStrip (s : String) : String :=
  ⟨((s.data.dropWhile Char.isWhitespace).reverse.dropWhile Char.isWhitespace).reverse⟩

/-- `needle` is a prefix of `haystack` (character lists). -/
def startsWithChars : List Char → List Char → Bool
  | [], _ => true
  | _ :: _, [] => false
  | a :: as, b :: bs => a == b && startsWithChars as bs

/-- `needle` occurs contiguously inside `haystack` (character lists). -/
def occursInChars (needle : List Char) : List Char → Bool
  | [] => startsWithChars needle []
  | b :: bs => startsWithChars needle (b :: bs) || occursInChars needle bs

/-- Model of Python `needle in haystack` on strings: contiguous substring. -/
def strContains (haystack needle : String) : Bool :=
  occursInChars needle.data haystack.data

/-! ## MD5 (model of `hashlib.md5(...).hexdigest()`)

The fingerprint functions call `hashlib.md5` on the UTF-8 encoding of the
key string; we embed the full MD5 algorithm over `Nat` with explicit
`% 2^32` wraparound. -/

/-- UTF-8 encoding of a string, as a list of byte values (model of
`str.encode()`). -/
def utf8Bytes (s : String) : List Nat :=
  s.data.flatMap fun c =>
    let n := c.toNat
    if n < 0x80 then [n]
    else if n < 0x800 then
      [0xC0 + n / 0x40, 0x80 + n % 0x40]
    else if n < 0x10000 then
      [0xE0 + n / 0x1000, 0x80 + n / 0x40 % 0x40, 0x80 + n % 0x40]
    else
      [0xF0 + n / 0x40000, 0x80 + n / 0x1000 % 0x40,
       0x80 + n / 0x40 % 0x40, 0x80 + n % 0x40]

namespace MD5

/-- The 64 round constants `⌊2³² · |sin (i+1)|⌋`. -/
def K : List Nat :=
  [3614090360, 3905402710, 606105819, 3250441966, 4118548399, 1200080426,
   2821735955, 4249261313, 1770035416, 2336552879, 4294925233, 2304563134,
   1804603682, 4254626195, 2792965006, 1236535329, 4129170786, 3225465664,
   643717713, 3921069994, 3593408605, 38016083, 3634488961, 3889429448,
   568446438, 3275163606, 4107603335, 1163531501, 2850285829, 4243563512,
   1735328473, 2368359562, 4294588738, 2272392833, 1839030562, 4259657740,
   2763975236, 1272893353, 4139469664, 3200236656, 681279174, 3936430074,
   3572445317, 76029189, 3654602809, 3873151461, 530742520, 3299628645,
   4096336452, 1126891415, 2878612391, 4237533241, 1700485571, 2399980690,
   4293915773, 2240044497, 1873313359, 4264355552, 2734768916, 1309151649,
   4149444226, 3174756917, 718787259, 3951481745]

/-- The per-round left-rotation amounts. -/
def S : List Nat :=
  [7, 12, 17, 22, 7, 12, 17, 22, 7, 12, 17, 22, 7, 12, 17, 22,
   5, 9, 14, 20, 5, 9, 14, 20, 5, 9, 14, 20, 5, 9, 14, 20,
   4, 11, 16, 23, 4, 11, 16, 23, 4, 11, 16, 23, 4, 11, 16, 23,
   6, 10, 15, 21, 6, 10, 15, 21, 6, 10, 15, 21, 6, 10, 15, 21]

/-- 32-bit mask. -/
def M32 : Nat := 4294967296

/-- 32-bit left rotation. -/
def rotl (x n : Nat) : Nat :=
  (x * 2 ^ n + x / 2 ^ (32 - n)) % M32

/-- Bitwise complement on 32 bits. -/
def not32 (x : Nat) : Nat := 4294967295 - x % M32

/-- MD5 padding: append `0x80`, zero-pad to 56 mod 64, then the bit length
in 8 little-endian bytes. -/
def pad (msg : List Nat) : List Nat :=
  let len := msg.length
  let zeros := (119 - len % 64) % 64
  let bitLen := len * 8
  msg ++ [0x80] ++ List.replicate zeros 0 ++
    (List.range 8).map fun i => bitLen / 2 ^ (8 * i) % 256

/-- Split the padded message into 16-word (little-endian) blocks. -/
def toBlocks : List Nat → List (List Nat)
  | [] => []
  | b :: bs =>
    let block := (b :: bs).take 64
    let words := (List.range 16).map fun i =>
      (block.take (4 * i + 4)).drop (4 * i) |>.reverse.foldl (fun a c => a * 256 + c) 0
    words :: toBlocks ((b :: bs).drop 64)
  termination_by bytes => bytes.length
  decreasing_by
    simp only [List.length_drop, List.length_cons]
    omega

/-- One of the 64 MD5 rounds acting on the state `(a, b, c, d)`. -/
def round (X : List Nat) (i : Nat) : Nat × Nat × Nat × Nat → Nat × Nat × Nat × Nat
  | (a, b, c, d) =>
    let (f, g) :=
      if i < 16 then ((b.land c).lor ((not32 b).land d), i)
      else if i < 32 then ((d.land b).lor ((not32 d).land c), (5 * i + 1) % 16)
      else if i < 48 then ((b.xor c).xor d, (3 * i + 5) % 16)
      else (c.xor ((b.lor (not32 d)) % M32), (7 * i) % 16)
    let tmp := (a + f + (K.getD i 0) + X.getD g 0) % M32
    (d, (b + rotl tmp (S.getD i 0)) % M32, b, c)

/-- Process one 16-word block, updating the 4-word chaining state. -/
def processBlock (st : Nat × Nat × Nat × Nat) (X : List Nat) :
    Nat × Nat × Nat × Nat :=
  let (a0, b0, c0, d0) := st
  let (a, b, c, d) := (List.range 64).foldl (fun s i => round X i s) st
  ((a0 + a) % M32, (b0 + b) % M32, (c0 + c) % M32, (d0 + d) % M32)

/-- Hex digit. -/
def hexDigit (n : Nat) : Char :=
  if n < 10 then Char.ofNat (48 + n) else Char.ofNat (87 + n)

/-- A 32-bit word as 8 hex characters, little-endian byte order as in the
MD5 digest. -/
def wordHex (w : Nat) : List Char :=
  (List.range 4).flatMap fun i =>
    let byte := w / 2 ^ (8 * i) % 256
    [hexDigit (byte / 16), hexDigit (byte % 16)]

/-- MD5 digest of a byte list, as the usual lowercase hex string. -/
def md5Hex (msg : List Nat) : String :=
  let st := (toBlocks (pad msg)).foldl processBlock
    (1732584193, 4023233417, 2562383102, 271733878)
  let (a, b, c, d) := st
  ⟨wordHex a ++ wordHex b ++ wordHex c ++ wordHex d⟩

end MD5

/-- Model of `hashlib.md5(key.encode()).hexdigest()`. -/
def md5HexOfString (key : String) : String :=
  MD5.md5Hex (utf8Bytes key)

/-! ## `models.py`: candidate records, stored jobs, fingerprint, dedup -/

/-- A candidate record produced by an adapter (a Python dict).  The keys the
pipeline reads are modelled as fields; `title` and `company` are accessed
unconditionally (`job_data['title']`), `location` through
`job_data.get(...)` and is therefore optional. -/
structure JobData where
  title : String
  company : String
  location : Option String := none
  description : String := ""
  url : String := ""
  source : String := ""
deriving Repr, DecidableEq

/-- A stored row of the `jobs` table: the dedup hash plus the record it was
created from (`Job(job_id=job_id, **job_data)`). -/
structure Job where
  job_id : String
  data : JobData
deriving Repr, DecidableEq

/-- `Job.generate_job_id` from `models.py`:
`key = f"{title.lower().strip()}|{company.lower().strip()}|{location.lower().strip()}"`
hashed with `hashlib.md5(key.encode()).hexdigest()`. -/
def Job.generate_job_id (title company location : String) : String :=
  md5HexOfString
    (pyStrip (pyLower title) ++ "|" ++ pyStrip (pyLower company) ++ "|" ++
      pyStrip (pyLower location))

namespace DatabaseManager

/-- `DatabaseManager.add_job` from `models.py`: compute the fingerprint with
`job_data.get('location', 'N/A')`, look the fingerprint up, return
`(False, existing)` on a hit and otherwise insert and return
`(True, job)`.  The session is the list of rows. -/
def add_job (store : List Job) (job_data : JobData) :
    Bool × Job × List Job :=
  let job_id := Job.generate_job_id job_data.title job_data.company
    (job_data.location.getD "N/A")
  match store.find? (fun j => j.job_id == job_id) with
  | some existing => (false, existing, store)
  | none =>
    let job : Job := ⟨job_id, job_data⟩
    (true, job, store ++ [job])

end DatabaseManager

/-! ## `scrapers.py`: `BaseScraper.normalize_date` -/

/-- Numeric value of a digit run. -/
def digitsVal (l : List Char) : Nat :=
  l.foldl (fun a c => a * 10 + (c.toNat - 48)) 0

/-- First maximal digit run of a character list, as a number: model of
`re.findall(r'\d+', s)[0]` (with `none` when there is no digit). -/
def firstNumberChars : List Char → Option Nat
  | [] => none
  | c :: rest =>
    if c.isDigit then some (digitsVal (c :: rest.takeWhile Char.isDigit))
    else firstNumberChars rest

/-- `int(re.findall(r'\d+', s)[0])`, or `none` when `findall` is empty. -/
def firstNumber (s : String) : Option Nat :=
  firstNumberChars s.data

/-- `BaseScraper.normalize_date` from `scrapers.py`.  `now` is
`datetime.utcnow()` in seconds; `parseDate` models `dateutil`'s
`date_parser.parse` (`none` = the parser raises); `date_str` is the raw
date (`none` = Python `None`; `""` is also falsy).  A string containing
`"ago"` (case-insensitively) with a number `n` yields
`now - timedelta(days=n)` — `n` days, whatever unit the text names. -/
def normalize_date (now : Int) (parseDate : String → Option Int)
    (date_str : Option String) : Int :=
  match date_str with
  | none => now
  | some s =>
    if s = "" then now
    else if strContains (pyLower s) "ago" then
      match firstNumber s with
      | some n => now - n * 86400
      | none => (parseDate s).getD now
    else (parseDate s).getD now

/-! ## `location_filter.py`: the US-location classifier -/

/-- `US_STATES` from `location_filter.py`. -/
def US_STATES : List String :=
  ["alabama", "alaska", "arizona", "arkansas", "california", "colorado",
   "connecticut", "delaware", "florida", "georgia", "hawaii", "idaho",
   "illinois", "indiana", "iowa", "kansas", "kentucky", "louisiana",
   "maine", "maryland", "massachusetts", "michigan", "minnesota",
   "mississippi", "missouri", "montana", "nebraska", "nevada",
   "new hampshire", "new jersey", "new mexico", "new york",
   "north carolina", "north dakota", "ohio", "oklahoma", "oregon",
   "pennsylvania", "rhode island", "south carolina", "south dakota",
   "tennessee", "texas", "utah", "vermont", "virginia", "washington",
   "west virginia", "wisconsin", "wyoming",
   "al", "ak", "az", "ar", "ca", "co", "ct", "de", "fl", "ga", "hi", "id",
   "il", "in", "ia", "ks", "ky", "la", "me", "md", "ma", "mi", "mn", "ms",
   "mo", "mt", "ne", "nv", "nh", "nj", "nm", "ny", "nc", "nd", "oh", "ok",
   "or", "pa", "ri", "sc", "sd", "tn", "tx", "ut", "vt", "va", "wa", "wv",
   "wi", "wy",
   "washington dc", "dc", "district of columbia", "puerto rico", "pr"]

/-- `US_MAJOR_CITIES` from `location_filter.py`. -/
def US_MAJOR_CITIES : List String :=
  ["new york", "los angeles", "chicago", "houston", "phoenix", "philadelphia",
   "san antonio", "san diego", "dallas", "san jose", "austin", "jacksonville",
   "fort worth", "columbus", "charlotte", "san francisco", "indianapolis",
   "seattle", "denver", "washington", "boston", "el paso", "nashville",
   "detroit", "oklahoma city", "portland", "las vegas", "memphis",
   "louisville", "baltimore", "milwaukee", "albuquerque", "tucson", "fresno",
   "mesa", "sacramento", "atlanta", "kansas city", "colorado springs", "omaha",
   "raleigh", "miami", "long beach", "virginia beach", "oakland", "minneapolis",
   "tulsa", "tampa", "arlington", "new orleans", "nyc", "la", "sf", "dc"]

/-- `US_INDICATORS` from `location_filter.py`. -/
def US_INDICATORS : List String :=
  ["usa", "us", "united states", "america", "american", "nationwide"]

/-- `REMOTE_US_KEYWORDS` from `location_filter.py`. -/
def REMOTE_US_KEYWORDS : List String :=
  ["us remote", "usa remote", "remote us", "remote usa", "remote (us)",
   "remote - us", "remote united states", "us only", "usa only"]

/-- `NON_US_COUNTRIES` from `location_filter.py`. -/
def NON_US_COUNTRIES : List String :=
  ["uk", "united kingdom", "england", "london", "scotland", "wales",
   "canada", "canadian", "toronto", "vancouver", "montreal", "ottawa",
   "australia", "australian", "sydney", "melbourne", "brisbane",
   "germany", "german", "berlin", "munich", "frankfurt",
   "france", "french", "paris", "lyon",
   "spain", "spanish", "madrid", "barcelona",
   "italy", "italian", "rome", "milan",
   "netherlands", "dutch", "amsterdam",
   "india", "indian", "bangalore", "mumbai", "delhi", "hyderabad",
   "china", "chinese", "beijing", "shanghai",
   "japan", "japanese", "tokyo", "osaka",
   "singapore", "hong kong", "brazil", "mexico", "argentina",
   "ireland", "dublin", "sweden", "stockholm", "norway", "oslo",
   "denmark", "copenhagen", "finland", "helsinki", "poland", "warsaw",
   "portugal", "lisbon", "israel", "tel aviv", "south africa",
   "new zealand", "auckland", "europe", "european", "asia", "emea",
   "worldwide", "global", "international", "anywhere"]

/-- Lower-case ASCII letter (regex `[a-z]`). -/
def isAZ (c : Char) : Bool :=
  97 ≤ c.toNat && c.toNat ≤ 122

/-- Regex word character `\w` as it can occur in a lower-cased ASCII
string: `[a-z0-9_]`. -/
def isWordChar (c : Char) : Bool :=
  isAZ c || (48 ≤ c.toNat && c.toNat ≤ 57) || c == '_'

/-- Scanner for `re.findall(r'\b[a-z]+\b', s)`: collects the maximal runs
of `[a-z]` whose neighbours on both sides are word boundaries.
`boundaryOk` records that the character before the current run (if any)
was not a word character; `cur` is the current run, reversed. -/
def findWordsGo (boundaryOk : Bool) (cur : List Char) :
    List Char → List String
  | [] => if boundaryOk && !cur.isEmpty then [⟨cur.reverse⟩] else []
  | c :: rest =>
    if isAZ c then findWordsGo boundaryOk (c :: cur) rest
    else
      (if boundaryOk && !cur.isEmpty && !isWordChar c then
        [(⟨cur.reverse⟩ : String)] else [])
        ++ findWordsGo (!isWordChar c) [] rest

/-- `re.findall(r'\b[a-z]+\b', s)`. -/
def findWords (s : String) : List String :=
  findWordsGo true [] s.data

/-- Attempt to match `\s*([a-z]{2})\b` directly after a comma: skip
whitespace, require exactly two `[a-z]` characters followed by a word
boundary, and return the two-letter group. -/
def matchCommaState (l : List Char) : Option String :=
  match l.dropWhile Char.isWhitespace with
  | a :: b :: rest =>
    if isAZ a && isAZ b &&
        (match rest with | [] => true | d :: _ => !isWordChar d) then
      some ⟨[a, b]⟩
    else none
  | _ => none

/-- `re.search(r',\s*([a-z]{2})\b', s)`: the group of the first (leftmost)
match, scanning comma by comma. -/
def commaStateSearch : List Char → Option String
  | [] => none
  | c :: rest =>
    if c == ',' then
      match matchCommaState rest with
      | some st => some st
      | none => commaStateSearch rest
    else commaStateSearch rest

/-- `is_us_location` from `location_filter.py`: the tiered classifier.
Empty/near-empty allow; non-US token (substring) excludes; US indicator,
remote-US keyword, state word, city substring, `", xx"` state pattern and
the bare remote phrases allow; otherwise exclude. -/
def is_us_location (location_str : String) : Bool :=
  if location_str = "" then true
  else
    let location_lower := pyStrip (pyLower location_str)
    if location_lower.length < 2 then true
    else if NON_US_COUNTRIES.any (fun c => strContains location_lower c) then
      false
    else if US_INDICATORS.any (fun c => strContains location_lower c) then
      true
    else if REMOTE_US_KEYWORDS.any (fun c => strContains location_lower c) then
      true
    else if (findWords location_lower).any (fun w => US_STATES.contains w) then
      true
    else if US_MAJOR_CITIES.any (fun c => strContains location_lower c) then
      true
    else if (match commaStateSearch location_lower.data with
             | some st => US_STATES.contains st
             | none => false) then
      true
    else if location_lower == "remote" || location_lower == "remote work" ||
        location_lower == "work from home" || location_lower == "wfh" then
      true
    else false

/-- `filter_us_jobs` from `location_filter.py`: keep the jobs whose
`job.get('location', '')` classifies as US. -/
def filter_us_jobs (jobs : List JobData) : List JobData :=
  jobs.filter fun job => is_us_location (job.location.getD "")

/-! ## `aggregator.py`: `JobAggregator.scrape_all` -/

/-- Observable events of a run: invoking one source's adapter, and the
inter-source pacing delay `time.sleep(1)`. -/
inductive ScrapeEvent where
  | scrape (source : String)
  | sleep
deriving Repr, DecidableEq

/-- One source's entry of `stats['by_source']`.  A successful source has no
`error` key (`none`); a failed source stores `str(e)`. -/
structure SourceStats where
  scraped : Nat
  new : Nat
  duplicates : Nat
  error : Option String := none
deriving Repr, DecidableEq

/-- The `stats` dict returned by `scrape_all`; `by_source` keeps the
insertion order of the loop. -/
structure AggStats where
  total_scraped : Nat
  total_new : Nat
  total_duplicates : Nat
  by_source : List (String × SourceStats)
deriving Repr, DecidableEq

/-- The `for job in jobs` loop body of `scrape_all`: feed each job to
`db.add_job`, counting new and duplicate records; returns
`(new_count, duplicate_count, store)`. -/
def processJobs (store : List Job) : List JobData → Nat × Nat × List Job
  | [] => (0, 0, store)
  | job :: rest =>
    match DatabaseManager.add_job store job with
    | (is_new, _, store₁) =>
      match processJobs store₁ rest with
      | (n, d, store₂) =>
        if is_new then (n + 1, d, store₂) else (n, d + 1, store₂)

/-- `JobAggregator.scrape_all` from `aggregator.py`.  Each selected source
is given as its name together with the outcome of
`scraper.scrape(...)` — `.ok jobs` for a normal return, `.error (str e)`
for a raised exception.  On success the jobs are US-filtered when
`us_only`, deduplicated into the store, counted into the stats, and the
pacing delay runs; on failure the source records a zeroed entry carrying
the error string and the loop moves on (the `except` branch has no
`time.sleep`).  Returns the stats, the final store and the event trace;
the function is total — the model of "the orchestrator never raises". -/
def scrape_all (us_only : Bool) (store : List Job) :
    List (String × Except String (List JobData)) →
    AggStats × List Job × List ScrapeEvent
  | [] => (⟨0, 0, 0, []⟩, store, [])
  | (source_name, result) :: rest =>
    match result with
    | .ok scraped_jobs =>
      let jobs := if us_only then filter_us_jobs scraped_jobs else scraped_jobs
      match processJobs store jobs with
      | (new_count, duplicate_count, store₁) =>
        match scrape_all us_only store₁ rest with
        | (stats, store₂, trace) =>
          (⟨jobs.length + stats.total_scraped,
            new_count + stats.total_new,
            duplicate_count + stats.total_duplicates,
            (source_name, ⟨jobs.length, new_count, duplicate_count, none⟩)
              :: stats.by_source⟩,
           store₂,
           .scrape source_name :: .sleep :: trace)
    | .error e =>
      match scrape_all us_only store rest with
      | (stats, store₂, trace) =>
        ({ stats with
            by_source := (source_name, ⟨0, 0, 0, some e⟩) :: stats.by_source },
         store₂,
         .scrape source_name :: trace)

/-! ## `job_board_integration.py`: listings, tracking, cache-aside details -/

/-- A row of the `job_listings` table. -/
structure JobListing where
  id : Nat
  job_id : String
  title : String
  company : String
  location : Option String := none
  salary : Option String := none
  source : String := ""
  source_url : String := ""
  posted_date : Option Int := none
  remote : Bool := false
  job_type : Option String := none
  preview_text : String := ""
  last_accessed : Option Int := none
  view_count : Nat := 0
  cached_description : Option String := none
  cache_date : Option Int := none
deriving Repr, DecidableEq

/-- `JobListing.generate_job_id` from `job_board_integration.py` — the same
lower/strip/join/md5 key as `Job.generate_job_id`. -/
def JobListing.generate_job_id (title company location : String) : String :=
  md5HexOfString
    (pyStrip (pyLower title) ++ "|" ++ pyStrip (pyLower company) ++ "|" ++
      pyStrip (pyLower location))

/-- The dict consumed by `JobBoardDatabase.add_job`; `title`, `company`,
`source` and `url` are read unconditionally, the rest through `.get`. -/
structure BoardJobData where
  title : String
  company : String
  location : Option String := none
  salary : Option String := none
  source : String := ""
  url : String := ""
  posted_date : Option Int := none
  remote : Bool := false
  job_type : Option String := none
  preview_text : Option String := none
deriving Repr, DecidableEq

namespace JobBoardDatabase

/-- `JobBoardDatabase.add_job`: fingerprint with
`job_data.get('location', 'N/A')`, return the existing row on a hit,
otherwise build and insert the listing (the stored `location` also uses
the `'N/A'` default, and `preview_text` is truncated to 500 characters).
The autoincrement primary key is modelled as `store.length + 1`. -/
def add_job (store : List JobListing) (job_data : BoardJobData) :
    Bool × JobListing × List JobListing :=
  let job_id := JobListing.generate_job_id job_data.title job_data.company
    (job_data.location.getD "N/A")
  match store.find? (fun j => j.job_id == job_id) with
  | some existing => (false, existing, store)
  | none =>
    let job : JobListing :=
      { id := store.length + 1
        job_id := job_id
        title := job_data.title
        company := job_data.company
        location := some (job_data.location.getD "N/A")
        salary := job_data.salary
        source := job_data.source
        source_url := job_data.url
        posted_date := job_data.posted_date
        remote := job_data.remote
        job_type := job_data.job_type
        preview_text := (job_data.preview_text.getD "").take 500 }
    (true, job, store ++ [job])

/-- Replace the first row with the given primary key (the row
`get_job_by_id` finds and mutates). -/
def replaceFirstById (f : JobListing → JobListing) (id : Nat) :
    List JobListing → List JobListing
  | [] => []
  | j :: rest =>
    if j.id == id then f j :: rest else j :: replaceFirstById f id rest

/-- `JobBoardDatabase.track_view`: bump `view_count`, set `last_accessed`
(no-op when the id resolves to no row). -/
def track_view (store : List JobListing) (job_id : Nat) (now : Int) :
    List JobListing :=
  replaceFirstById
    (fun j => { j with last_accessed := some now,
                       view_count := j.view_count + 1 }) job_id store

/-- `JobBoardDatabase.cache_description`: store the fetched description and
stamp `cache_date`. -/
def cache_description (store : List JobListing) (job_id : Nat)
    (description : String) (now : Int) : List JobListing :=
  replaceFirstById
    (fun j => { j with cached_description := some description,
                       cache_date := some now }) job_id store

end JobBoardDatabase

/-- The dict `get_job_details` returns: `to_dict()` of the row plus the
`description`, `from_cache` and `view_count` keys added by the method. -/
structure DetailView where
  id : Nat
  job_id : String
  title : String
  company : String
  location : Option String
  salary : Option String
  source : String
  source_url : String
  posted_date : Option Int
  remote : Bool
  job_type : Option String
  preview_text : String
  description : String := ""
  from_cache : Bool := false
  view_count : Nat := 0
deriving Repr, DecidableEq

/-- `JobListing.to_dict`, as the base of a `DetailView`. -/
def JobListing.to_dict (j : JobListing) : DetailView :=
  { id := j.id, job_id := j.job_id, title := j.title, company := j.company
    location := j.location, salary := j.salary, source := j.source
    source_url := j.source_url, posted_date := j.posted_date
    remote := j.remote, job_type := j.job_type
    preview_text := j.preview_text }

/-- Python truthiness of `job.cached_description` (`None` and `""` are
falsy). -/
def cachedTruthy (j : JobListing) : Bool :=
  match j.cached_description with
  | some d => !(d == "")
  | none => false

namespace JobBoardAPI

/-- `JobBoardAPI.get_job_details`.  `fetch url source` models
`DetailFetcher.fetch_details` (`none` = the fetch failed).  Returns the
detail dict (`none` = the Python `None` for an unknown id), the updated
store, and how many times the fetcher ran.  The session identity map makes
the row read after `track_view` the bumped row, so the returned
`view_count` is the incremented one. -/
def get_job_details (fetch : String → String → Option String) (now : Int)
    (store : List JobListing) (job_id : Nat) (use_cache : Bool) :
    Option DetailView × List JobListing × Nat :=
  match store.find? (fun j => j.id == job_id) with
  | none => (none, store, 0)
  | some job₀ =>
    let store₁ := JobBoardDatabase.track_view store job_id now
    let job := { job₀ with last_accessed := some now,
                           view_count := job₀.view_count + 1 }
    let details := job.to_dict
    if use_cache && cachedTruthy job then
      (some { details with description := job.cached_description.getD "",
                           from_cache := true, view_count := job.view_count },
       store₁, 0)
    else
      match fetch job.source_url job.source with
      | some description =>
        (some { details with description := description,
                             from_cache := false, view_count := job.view_count },
         JobBoardDatabase.cache_description store₁ job_id description now, 1)
      | none =>
        (some { details with
                  description :=
                    job.preview_text ++ "... (Full details unavailable)",
                  from_cache := false, view_count := job.view_count },
         store₁, 1)

end JobBoardAPI

/-! ## Helper lemmas -/

theorem startsWithChars_length {needle haystack : List Char}
    (h : startsWithChars needle haystack = true) :
    needle.length ≤ haystack.length := by
  induction needle generalizing haystack with
  | nil => simp
  | cons a as ih =>
    cases haystack with
    | nil => simp [startsWithChars] at h
    | cons b bs =>
      simp only [startsWithChars, Bool.and_eq_true] at h
      simpa using ih h.2

theorem occursInChars_length {needle haystack : List Char}
    (h : occursInChars needle haystack = true) :
    needle.length ≤ haystack.length := by
  induction haystack with
  | nil =>
    cases needle with
    | nil => simp
    | cons a as => simp [occursInChars, startsWithChars] at h
  | cons b bs ih =>
    simp only [occursInChars, Bool.or_eq_true] at h
    rcases h with h | h
    · exact startsWithChars_length h
    · exact le_trans (ih h) (by simp)

theorem find?_append_singleton {α : Type} (l : List α) (p : α → Bool) (a : α)
    (h : l.find? p = none) (ha : p a = true) :
    (l ++ [a]).find? p = some a := by
  induction l with
  | nil => simp [List.find?, ha]
  | cons b bs ih =>
    rcases hb : p b with _ | _
    · simp only [List.cons_append, List.find?_cons, hb, cond_false] at h ⊢
      exact ih h
    · simp [List.find?_cons, hb] at h

theorem find?_replaceFirstById (store : List JobListing) (id : Nat)
    (f : JobListing → JobListing) (job : JobListing)
    (hid : ∀ x, (f x).id = x.id)
    (h : store.find? (fun j => j.id == id) = some job) :
    (JobBoardDatabase.replaceFirstById f id store).find? (fun j => j.id == id)
      = some (f job) := by
  induction store with
  | nil => simp [List.find?] at h
  | cons b bs ih =>
    rcases hb : (b.id == id) with _ | _
    · simp only [List.find?_cons, hb, cond_false] at h
      simp only [JobBoardDatabase.replaceFirstById, hb, if_neg, Bool.false_eq_true,
        if_false]
      simp only [List.find?_cons, hb, cond_false]
      exact ih h
    · simp only [List.find?_cons, hb, cond_true, Option.some.injEq] at h
      subst h
      simp [JobBoardDatabase.replaceFirstById, hb, List.find?_cons, hid]

theorem generate_job_id_congr {t₁ c₁ l₁ t₂ c₂ l₂ : String}
    (ht : pyStrip (pyLower t₁) = pyStrip (pyLower t₂))
    (hc : pyStrip (pyLower c₁) = pyStrip (pyLower c₂))
    (hl : pyStrip (pyLower l₁) = pyStrip (pyLower l₂)) :
    Job.generate_job_id t₁ c₁ l₁ = Job.generate_job_id t₂ c₂ l₂ := by
  unfold Job.generate_job_id
  rw [ht, hc, hl]

theorem listing_generate_job_id_congr {t₁ c₁ l₁ t₂ c₂ l₂ : String}
    (ht : pyStrip (pyLower t₁) = pyStrip (pyLower t₂))
    (hc : pyStrip (pyLower c₁) = pyStrip (pyLower c₂))
    (hl : pyStrip (pyLower l₁) = pyStrip (pyLower l₂)) :
    JobListing.generate_job_id t₁ c₁ l₁ = JobListing.generate_job_id t₂ c₂ l₂ := by
  unfold JobListing.generate_job_id
  rw [ht, hc, hl]

theorem processJobs_counts (jobs : List JobData) (store : List Job) :
    (processJobs store jobs).1 + (processJobs store jobs).2.1 = jobs.length := by
  induction jobs generalizing store with
  | nil => simp [processJobs]
  | cons j rest ih =>
    simp only [processJobs]
    rcases h : DatabaseManager.add_job store j with ⟨is_new, _, store₁⟩
    rcases hr : processJobs store₁ rest with ⟨n, d, store₂⟩
    have := ih store₁
    rw [hr] at this
    rcases is_new with _ | _ <;> simp at this ⊢ <;> omega

/-! ## Claim theorems -/

/-- C1: any two title/company/location triples that agree after lower-casing
and stripping surrounding whitespace of each field receive the same
fingerprint, from `Job.generate_job_id` as well as from
`JobListing.generate_job_id`; and two candidate records with the same
normalized title, company and location get the same fingerprint whatever
their `source` fields are (the key is built from the three fields only). -/
theorem fingerprint_normalization_invariant :
    (∀ t₁ c₁ l₁ t₂ c₂ l₂ : String,
      pyStrip (pyLower t₁) = pyStrip (pyLower t₂) →
      pyStrip (pyLower c₁) = pyStrip (pyLower c₂) →
      pyStrip (pyLower l₁) = pyStrip (pyLower l₂) →
      Job.generate_job_id t₁ c₁ l₁ = Job.generate_job_id t₂ c₂ l₂)
    ∧ (∀ t₁ c₁ l₁ t₂ c₂ l₂ : String,
      pyStrip (pyLower t₁) = pyStrip (pyLower t₂) →
      pyStrip (pyLower c₁) = pyStrip (pyLower c₂) →
      pyStrip (pyLower l₁) = pyStrip (pyLower l₂) →
      JobListing.generate_job_id t₁ c₁ l₁ = JobListing.generate_job_id t₂ c₂ l₂)
    ∧ (∀ r₁ r₂ : JobData,
      pyStrip (pyLower r₁.title) = pyStrip (pyLower r₂.title) →
      pyStrip (pyLower r₁.company) = pyStrip (pyLower r₂.company) →
      pyStrip (pyLower (r₁.location.getD "N/A"))
        = pyStrip (pyLower (r₂.location.getD "N/A")) →
      Job.generate_job_id r₁.title r₁.company (r₁.location.getD "N/A")
        = Job.generate_job_id r₂.title r₂.company (r₂.location.getD "N/A")) := by
  refine ⟨?_, ?_, ?_⟩
  · intro t₁ c₁ l₁ t₂ c₂ l₂ ht hc hl
    exact generate_job_id_congr ht hc hl
  · intro t₁ c₁ l₁ t₂ c₂ l₂ ht hc hl
    exact listing_generate_job_id_congr ht hc hl
  · intro r₁ r₂ ht hc hl
    exact generate_job_id_congr ht hc hl

/-- Witness for C1: two casing/whitespace variants of the same triple, on
records coming from different sources, fingerprint identically. -/
theorem fingerprint_normalization_invariant_witness :
    Job.generate_job_id "  Senior Engineer" "ACME Corp " " New York, NY"
      = Job.generate_job_id "senior engineer" " acme corp" "new york, ny "
    ∧ Job.generate_job_id
        (JobData.mk "Dev" "ACME" (some "NYC") "" "" "remoteok").title
        (JobData.mk "Dev" "ACME" (some "NYC") "" "" "remoteok").company
        ((JobData.mk "Dev" "ACME" (some "NYC") "" "" "remoteok").location.getD "N/A")
      = Job.generate_job_id
        (JobData.mk " dev " " acme " (some " nyc ") "" "" "indeed").title
        (JobData.mk " dev " " acme " (some " nyc ") "" "" "indeed").company
        ((JobData.mk " dev " " acme " (some " nyc ") "" "" "indeed").location.getD "N/A") :=
  ⟨fingerprint_normalization_invariant.1 _ _ _ _ _ _ (by decide) (by decide)
      (by decide),
   fingerprint_normalization_invariant.2.2
      (JobData.mk "Dev" "ACME" (some "NYC") "" "" "remoteok")
      (JobData.mk " dev " " acme " (some " nyc ") "" "" "indeed")
      (by decide) (by decide) (by decide)⟩

/-- C2: when the store holds no job with the record's fingerprint,
`add_job` inserts a new stored job and returns `(True, new)`; a second call
with any record of the same fingerprint returns `(False, existing)` with
the job stored by the first call, leaves the store unchanged, and the
store's length has grown by exactly 1 over the two calls. -/
theorem add_job_dedup_idempotent (store : List Job) (r₁ r₂ : JobData)
    (habsent : store.find? (fun j => j.job_id ==
        Job.generate_job_id r₁.title r₁.company (r₁.location.getD "N/A"))
      = none)
    (hsame : Job.generate_job_id r₂.title r₂.company (r₂.location.getD "N/A")
      = Job.generate_job_id r₁.title r₁.company (r₁.location.getD "N/A")) :
    (DatabaseManager.add_job store r₁).1 = true
    ∧ (DatabaseManager.add_job store r₁).2.2
        = store ++ [(DatabaseManager.add_job store r₁).2.1]
    ∧ (DatabaseManager.add_job (DatabaseManager.add_job store r₁).2.2 r₂).1
        = false
    ∧ (DatabaseManager.add_job (DatabaseManager.add_job store r₁).2.2 r₂).2.1
        = (DatabaseManager.add_job store r₁).2.1
    ∧ (DatabaseManager.add_job (DatabaseManager.add_job store r₁).2.2 r₂).2.2
        = (DatabaseManager.add_job store r₁).2.2
    ∧ (DatabaseManager.add_job store r₁).2.2.length = store.length + 1 := by
  have h₁ : DatabaseManager.add_job store r₁ =
      (true,
       ⟨Job.generate_job_id r₁.title r₁.company (r₁.location.getD "N/A"), r₁⟩,
       store ++
         [(⟨Job.generate_job_id r₁.title r₁.company (r₁.location.getD "N/A"),
             r₁⟩ : Job)]) := by
    simp only [DatabaseManager.add_job, habsent]
  have h₂ : (store ++
      [(⟨Job.generate_job_id r₁.title r₁.company (r₁.location.getD "N/A"),
          r₁⟩ : Job)]).find?
        (fun j => j.job_id ==
          Job.generate_job_id r₂.title r₂.company (r₂.location.getD "N/A"))
      = some ⟨Job.generate_job_id r₁.title r₁.company (r₁.location.getD "N/A"),
          r₁⟩ := by
    rw [hsame]
    exact find?_append_singleton store _ _ habsent (by simp)
  have h₃ : DatabaseManager.add_job
      (store ++
        [(⟨Job.generate_job_id r₁.title r₁.company (r₁.location.getD "N/A"),
            r₁⟩ : Job)]) r₂ =
      (false,
       ⟨Job.generate_job_id r₁.title r₁.company (r₁.location.getD "N/A"), r₁⟩,
       store ++
         [(⟨Job.generate_job_id r₁.title r₁.company (r₁.location.getD "N/A"),
             r₁⟩ : Job)]) := by
    simp only [DatabaseManager.add_job, h₂]
  rw [h₁]
  simp only [h₃]
  simp

/-- Witness for C2: inserting the same record twice into an empty store. -/
theorem add_job_dedup_idempotent_witness :
    (DatabaseManager.add_job [] (JobData.mk "Dev" "ACME" (some "NYC") "" "" "remoteok")).1 = true
    ∧ (DatabaseManager.add_job [] (JobData.mk "Dev" "ACME" (some "NYC") "" "" "remoteok")).2.2
        = [] ++ [(DatabaseManager.add_job [] (JobData.mk "Dev" "ACME" (some "NYC") "" "" "remoteok")).2.1]
    ∧ (DatabaseManager.add_job
        (DatabaseManager.add_job [] (JobData.mk "Dev" "ACME" (some "NYC") "" "" "remoteok")).2.2
        (JobData.mk "Dev" "ACME" (some "NYC") "" "" "remoteok")).1 = false
    ∧ (DatabaseManager.add_job
        (DatabaseManager.add_job [] (JobData.mk "Dev" "ACME" (some "NYC") "" "" "remoteok")).2.2
        (JobData.mk "Dev" "ACME" (some "NYC") "" "" "remoteok")).2.1
        = (DatabaseManager.add_job [] (JobData.mk "Dev" "ACME" (some "NYC") "" "" "remoteok")).2.1
    ∧ (DatabaseManager.add_job
        (DatabaseManager.add_job [] (JobData.mk "Dev" "ACME" (some "NYC") "" "" "remoteok")).2.2
        (JobData.mk "Dev" "ACME" (some "NYC") "" "" "remoteok")).2.2
        = (DatabaseManager.add_job [] (JobData.mk "Dev" "ACME" (some "NYC") "" "" "remoteok")).2.2
    ∧ (DatabaseManager.add_job [] (JobData.mk "Dev" "ACME" (some "NYC") "" "" "remoteok")).2.2.length
        = List.length ([] : List Job) + 1 :=
  add_job_dedup_idempotent [] (JobData.mk "Dev" "ACME" (some "NYC") "" "" "remoteok")
    (JobData.mk "Dev" "ACME" (some "NYC") "" "" "remoteok") rfl rfl

/-- Counterexample for C3: on `"2 hours ago"` the code does not subtract
2 hours; the `'ago'` branch always subtracts `timedelta(days=n)`, so the
result is `now - 2 days` (`now = 0` here, seconds as the unit, and the
general parser never consulted). -/
theorem normalize_date_hours_counterexample :
    normalize_date 0 (fun _ => none) (some "2 hours ago") = -(2 * 86400)
    ∧ normalize_date 0 (fun _ => none) (some "2 hours ago") ≠ -(2 * 3600) := by
  constructor
  · decide
  · decide

/-- C3 (amended): an absent or empty raw date yields the current time; a
raw date containing `"ago"` (case-insensitively) together with a number
`n` yields `now - n` **days** — for `"N days ago"` and `"N hours ago"`
alike; any other raw date goes to the general calendar parser, whose
failure falls back to the current time.  The function is total, the model
of "never raises". -/
theorem normalize_date_spec (now : Int) (parseDate : String → Option Int) :
    normalize_date now parseDate none = now
    ∧ normalize_date now parseDate (some "") = now
    ∧ (∀ (s : String) (n : Nat), s ≠ "" →
        strContains (pyLower s) "ago" = true → firstNumber s = some n →
        normalize_date now parseDate (some s) = now - n * 86400)
    ∧ (∀ s : String, s ≠ "" →
        strContains (pyLower s) "ago" = false ∨ firstNumber s = none →
        normalize_date now parseDate (some s) = (parseDate s).getD now) := by
  refine ⟨rfl, by simp [normalize_date], ?_, ?_⟩
  · intro s n hs hago hnum
    simp [normalize_date, hs, hago, hnum]
  · intro s hs h
    rcases h with h | h
    · simp [normalize_date, hs, h]
    · rcases hago : strContains (pyLower s) "ago" with _ | _
      · simp [normalize_date, hs, hago]
      · simp [normalize_date, hs, hago, h]

/-- Witness for C3 (amended): `"3 days ago"` normalizes to `now - 3` days
(with `now = 1000000` and an always-failing general parser). -/
theorem normalize_date_spec_witness :
    normalize_date 1000000 (fun _ => none) (some "3 days ago")
      = 1000000 - 3 * 86400 :=
  (normalize_date_spec 1000000 (fun _ => none)).2.2.1 "3 days ago" 3
    (by decide) (by decide) (by decide)

theorem db_add_job_fresh (s : List Job) (r : JobData)
    (habs : s.find? (fun j => j.job_id ==
        Job.generate_job_id r.title r.company (r.location.getD "N/A")) = none) :
    (DatabaseManager.add_job s r).1 = true
    ∧ (DatabaseManager.add_job s r).2.1.job_id
        = Job.generate_job_id r.title r.company (r.location.getD "N/A")
    ∧ (DatabaseManager.add_job s r).2.2 = s ++ [(DatabaseManager.add_job s r).2.1] := by
  simp only [DatabaseManager.add_job, habs]
  simp

theorem db_add_job_hit (s : List Job) (r : JobData) (jb : Job)
    (h : s.find? (fun j => j.job_id ==
        Job.generate_job_id r.title r.company (r.location.getD "N/A")) = some jb) :
    DatabaseManager.add_job s r = (false, jb, s) := by
  simp only [DatabaseManager.add_job, h]

theorem board_add_job_fresh (s : List JobListing) (b : BoardJobData)
    (habs : s.find? (fun j => j.job_id ==
        JobListing.generate_job_id b.title b.company (b.location.getD "N/A"))
      = none) :
    (JobBoardDatabase.add_job s b).1 = true
    ∧ (JobBoardDatabase.add_job s b).2.1.job_id
        = JobListing.generate_job_id b.title b.company (b.location.getD "N/A")
    ∧ (JobBoardDatabase.add_job s b).2.2
        = s ++ [(JobBoardDatabase.add_job s b).2.1] := by
  simp only [JobBoardDatabase.add_job, habs]
  simp

theorem board_add_job_hit (s : List JobListing) (b : BoardJobData)
    (jb : JobListing)
    (h : s.find? (fun j => j.job_id ==
        JobListing.generate_job_id b.title b.company (b.location.getD "N/A"))
      = some jb) :
    JobBoardDatabase.add_job s b = (false, jb, s) := by
  simp only [JobBoardDatabase.add_job, h]

/-- C10: a candidate without a `location` key is fingerprinted with the
literal `"N/A"` in the location slot, in `DatabaseManager.add_job` and in
`JobBoardDatabase.add_job` alike; consequently any second candidate with
the same normalized title and company whose location slot also normalizes
to `"n/a"` — either because the key is absent again or because it is
literally `"N/A"` in any casing/whitespace variant — deduplicates against
the stored job instead of creating a new one. -/
theorem add_job_missing_location_uses_na
    (store : List Job) (bstore : List JobListing)
    (r₁ r₂ : JobData) (b₁ b₂ : BoardJobData)
    (hr₁ : r₁.location = none)
    (ht : pyStrip (pyLower r₂.title) = pyStrip (pyLower r₁.title))
    (hc : pyStrip (pyLower r₂.company) = pyStrip (pyLower r₁.company))
    (hl : pyStrip (pyLower (r₂.location.getD "N/A")) = "n/a")
    (habs : store.find? (fun j => j.job_id ==
        Job.generate_job_id r₁.title r₁.company "N/A") = none)
    (hb₁ : b₁.location = none)
    (hbt : pyStrip (pyLower b₂.title) = pyStrip (pyLower b₁.title))
    (hbc : pyStrip (pyLower b₂.company) = pyStrip (pyLower b₁.company))
    (hbl : pyStrip (pyLower (b₂.location.getD "N/A")) = "n/a")
    (habsb : bstore.find? (fun j => j.job_id ==
        JobListing.generate_job_id b₁.title b₁.company "N/A") = none) :
    (DatabaseManager.add_job store r₁).1 = true
    ∧ (DatabaseManager.add_job store r₁).2.1.job_id
        = Job.generate_job_id r₁.title r₁.company "N/A"
    ∧ (DatabaseManager.add_job (DatabaseManager.add_job store r₁).2.2 r₂).1
        = false
    ∧ (DatabaseManager.add_job (DatabaseManager.add_job store r₁).2.2 r₂).2.1
        = (DatabaseManager.add_job store r₁).2.1
    ∧ (DatabaseManager.add_job (DatabaseManager.add_job store r₁).2.2 r₂).2.2
        = (DatabaseManager.add_job store r₁).2.2
    ∧ (JobBoardDatabase.add_job bstore b₁).1 = true
    ∧ (JobBoardDatabase.add_job bstore b₁).2.1.job_id
        = JobListing.generate_job_id b₁.title b₁.company "N/A"
    ∧ (JobBoardDatabase.add_job (JobBoardDatabase.add_job bstore b₁).2.2 b₂).1
        = false
    ∧ (JobBoardDatabase.add_job (JobBoardDatabase.add_job bstore b₁).2.2 b₂).2.1
        = (JobBoardDatabase.add_job bstore b₁).2.1
    ∧ (JobBoardDatabase.add_job (JobBoardDatabase.add_job bstore b₁).2.2 b₂).2.2
        = (JobBoardDatabase.add_job bstore b₁).2.2 := by
  have ena : pyStrip (pyLower "N/A") = "n/a" := by decide
  have e₁ : r₁.location.getD "N/A" = "N/A" := by rw [hr₁]; rfl
  have hsame : Job.generate_job_id r₂.title r₂.company (r₂.location.getD "N/A")
      = Job.generate_job_id r₁.title r₁.company "N/A" :=
    generate_job_id_congr ht hc (hl.trans ena.symm)
  obtain ⟨hf1, hf2, hf3⟩ := db_add_job_fresh store r₁ (by rw [e₁]; exact habs)
  rw [e₁] at hf2
  have hfind : (DatabaseManager.add_job store r₁).2.2.find?
      (fun j => j.job_id ==
        Job.generate_job_id r₂.title r₂.company (r₂.location.getD "N/A"))
      = some (DatabaseManager.add_job store r₁).2.1 := by
    rw [hf3, hsame]
    exact find?_append_singleton store _ _ habs (by simp [hf2])
  have hhit := db_add_job_hit _ r₂ _ hfind
  have eb₁ : b₁.location.getD "N/A" = "N/A" := by rw [hb₁]; rfl
  have hsameb : JobListing.generate_job_id b₂.title b₂.company
      (b₂.location.getD "N/A")
      = JobListing.generate_job_id b₁.title b₁.company "N/A" :=
    listing_generate_job_id_congr hbt hbc (hbl.trans ena.symm)
  obtain ⟨hg1, hg2, hg3⟩ := board_add_job_fresh bstore b₁ (by rw [eb₁]; exact habsb)
  rw [eb₁] at hg2
  have hfindb : (JobBoardDatabase.add_job bstore b₁).2.2.find?
      (fun j => j.job_id ==
        JobListing.generate_job_id b₂.title b₂.company (b₂.location.getD "N/A"))
      = some (JobBoardDatabase.add_job bstore b₁).2.1 := by
    rw [hg3, hsameb]
    exact find?_append_singleton bstore _ _ habsb (by simp [hg2])
  have hhitb := board_add_job_hit _ b₂ _ hfindb
  exact ⟨hf1, hf2, by rw [hhit], by rw [hhit], by rw [hhit],
         hg1, hg2, by rw [hhitb], by rw [hhitb], by rw [hhitb]⟩

/-- Witness for C10: a location-less record deduplicates against a record
whose location is `" n/a "`, in both stores. -/
theorem add_job_missing_location_uses_na_witness :
    (DatabaseManager.add_job [] (JobData.mk "Dev" "ACME" none "" "" "a")).1 = true
    ∧ (DatabaseManager.add_job [] (JobData.mk "Dev" "ACME" none "" "" "a")).2.1.job_id
        = Job.generate_job_id "Dev" "ACME" "N/A"
    ∧ (DatabaseManager.add_job
        (DatabaseManager.add_job [] (JobData.mk "Dev" "ACME" none "" "" "a")).2.2
        (JobData.mk " dev" "acme " (some " N/a ") "" "" "b")).1 = false
    ∧ (DatabaseManager.add_job
        (DatabaseManager.add_job [] (JobData.mk "Dev" "ACME" none "" "" "a")).2.2
        (JobData.mk " dev" "acme " (some " N/a ") "" "" "b")).2.1
        = (DatabaseManager.add_job [] (JobData.mk "Dev" "ACME" none "" "" "a")).2.1
    ∧ (DatabaseManager.add_job
        (DatabaseManager.add_job [] (JobData.mk "Dev" "ACME" none "" "" "a")).2.2
        (JobData.mk " dev" "acme " (some " N/a ") "" "" "b")).2.2
        = (DatabaseManager.add_job [] (JobData.mk "Dev" "ACME" none "" "" "a")).2.2
    ∧ (JobBoardDatabase.add_job []
        (BoardJobData.mk "Dev" "ACME" none none "a" "u" none false none none)).1 = true
    ∧ (JobBoardDatabase.add_job []
        (BoardJobData.mk "Dev" "ACME" none none "a" "u" none false none none)).2.1.job_id
        = JobListing.generate_job_id "Dev" "ACME" "N/A"
    ∧ (JobBoardDatabase.add_job
        (JobBoardDatabase.add_job []
          (BoardJobData.mk "Dev" "ACME" none none "a" "u" none false none none)).2.2
        (BoardJobData.mk " dev" "acme " (some " N/a ") none "b" "u" none false none none)).1
        = false
    ∧ (JobBoardDatabase.add_job
        (JobBoardDatabase.add_job []
          (BoardJobData.mk "Dev" "ACME" none none "a" "u" none false none none)).2.2
        (BoardJobData.mk " dev" "acme " (some " N/a ") none "b" "u" none false none none)).2.1
        = (JobBoardDatabase.add_job []
            (BoardJobData.mk "Dev" "ACME" none none "a" "u" none false none none)).2.1
    ∧ (JobBoardDatabase.add_job
        (JobBoardDatabase.add_job []
          (BoardJobData.mk "Dev" "ACME" none none "a" "u" none false none none)).2.2
        (BoardJobData.mk " dev" "acme " (some " N/a ") none "b" "u" none false none none)).2.2
        = (JobBoardDatabase.add_job []
            (BoardJobData.mk "Dev" "ACME" none none "a" "u" none false none none)).2.2 :=
  add_job_missing_location_uses_na [] []
    (JobData.mk "Dev" "ACME" none "" "" "a")
    (JobData.mk " dev" "acme " (some " N/a ") "" "" "b")
    (BoardJobData.mk "Dev" "ACME" none none "a" "u" none false none none)
    (BoardJobData.mk " dev" "acme " (some " N/a ") none "b" "u" none false none none)
    rfl (by decide) (by decide) (by decide) rfl
    rfl (by decide) (by decide) (by decide) rfl

/-- C5: the classifier returns exactly the specified verdicts on the eight
table entries, and — the tier-ordering property — any non-empty location
whose normalized form contains a known non-US token classifies as `false`,
whatever else (including US-indicating tokens) the string contains. -/
theorem is_us_location_table_and_exclusion :
    is_us_location "New York, NY" = true
    ∧ is_us_location "London, UK" = false
    ∧ is_us_location "Remote, Worldwide" = false
    ∧ is_us_location "TX" = true
    ∧ is_us_location "" = true
    ∧ is_us_location "Remote" = true
    ∧ is_us_location "Bangalore, India" = false
    ∧ is_us_location "Remote - United States" = true
    ∧ (∀ (loc tok : String), tok ∈ NON_US_COUNTRIES → loc ≠ "" →
        strContains (pyStrip (pyLower loc)) tok = true →
        is_us_location loc = false) := by
  refine ⟨by decide, by decide, by decide, by decide, by decide, by decide,
    by decide, by decide, ?_⟩
  intro loc tok htok hne hsub
  have hall : ∀ t ∈ NON_US_COUNTRIES, 2 ≤ t.length := by decide
  have htl : 2 ≤ tok.length := hall tok htok
  have hdl : tok.data.length ≤ (pyStrip (pyLower loc)).data.length :=
    occursInChars_length hsub
  have htl' : tok.length = tok.data.length := rfl
  have hsl : (pyStrip (pyLower loc)).length
      = (pyStrip (pyLower loc)).data.length := rfl
  have hnlt : ¬ ((pyStrip (pyLower loc)).length < 2) := by omega
  have hany : NON_US_COUNTRIES.any
      (fun c => strContains (pyStrip (pyLower loc)) c) = true :=
    List.any_eq_true.mpr ⟨tok, htok, hsub⟩
  simp only [is_us_location, if_neg hne, if_neg hnlt, hany]
  simp

/-- Witness for C5's exclusion rule: `"Paris, TX"` contains the US state
abbreviation `tx` but the non-US token `paris` wins and excludes it. -/
theorem is_us_location_table_witness :
    is_us_location "Paris, TX" = false :=
  is_us_location_table_and_exclusion.2.2.2.2.2.2.2.2 "Paris, TX" "paris"
    (by decide) (by decide) (by decide)

/-- C9: in every run, each by-source entry satisfies
`scraped = new + duplicates` (failed sources report zeros), and each global
total is the sum of the corresponding per-source values. -/
theorem scrape_all_stats_accounting (us_only : Bool) (store : List Job)
    (sources : List (String × Except String (List JobData))) :
    (∀ p ∈ (scrape_all us_only store sources).1.by_source,
        p.2.scraped = p.2.new + p.2.duplicates)
    ∧ (scrape_all us_only store sources).1.total_scraped
        = ((scrape_all us_only store sources).1.by_source.map
            (fun p => p.2.scraped)).sum
    ∧ (scrape_all us_only store sources).1.total_new
        = ((scrape_all us_only store sources).1.by_source.map
            (fun p => p.2.new)).sum
    ∧ (scrape_all us_only store sources).1.total_duplicates
        = ((scrape_all us_only store sources).1.by_source.map
            (fun p => p.2.duplicates)).sum := by
  induction sources generalizing store with
  | nil => simp [scrape_all]
  | cons hd tl ih =>
    obtain ⟨nm, res⟩ := hd
    cases res with
    | ok jobsRaw =>
      have hjl := processJobs_counts
        (if us_only then filter_us_jobs jobsRaw else jobsRaw) store
      rcases hp : processJobs store
          (if us_only then filter_us_jobs jobsRaw else jobsRaw)
        with ⟨nc, dc, store₁⟩
      rw [hp] at hjl
      have ihs := ih store₁
      rcases hs : scrape_all us_only store₁ tl with ⟨stats, store₂, trace⟩
      rw [hs] at ihs
      simp only [scrape_all, hp, hs]
      refine ⟨?_, ?_, ?_, ?_⟩
      · intro p hmem
        rcases List.mem_cons.mp hmem with rfl | hmem
        · simp at hjl ⊢
          omega
        · exact ihs.1 p hmem
      · simp only [List.map_cons, List.sum_cons]
        have := ihs.2.1
        simp at this ⊢
        omega
      · simp only [List.map_cons, List.sum_cons]
        have := ihs.2.2.1
        simp at this ⊢
        omega
      · simp only [List.map_cons, List.sum_cons]
        have := ihs.2.2.2
        simp at this ⊢
        omega
    | error e =>
      have ihs := ih store
      rcases hs : scrape_all us_only store tl with ⟨stats, store₂, trace⟩
      rw [hs] at ihs
      simp only [scrape_all, hs]
      refine ⟨?_, ?_, ?_, ?_⟩
      · intro p hmem
        rcases List.mem_cons.mp hmem with rfl | hmem
        · simp
        · exact ihs.1 p hmem
      · simpa using ihs.2.1
      · simpa using ihs.2.2.1
      · simpa using ihs.2.2.2

/-- Witness for C9: a run over a succeeding source and a failing one; the
succeeding source's entry satisfies the accounting equation and the
total equals the per-source sum. -/
theorem scrape_all_stats_accounting_witness :
    ("alpha", SourceStats.mk 1 1 0 none).2.scraped
      = ("alpha", SourceStats.mk 1 1 0 none).2.new
        + ("alpha", SourceStats.mk 1 1 0 none).2.duplicates
    ∧ (scrape_all false []
        [("alpha", Except.ok [JobData.mk "Dev" "ACME" (some "NYC") "" "" "a"]),
         ("beta", Except.error "boom")]).1.total_scraped
      = ((scrape_all false []
          [("alpha", Except.ok [JobData.mk "Dev" "ACME" (some "NYC") "" "" "a"]),
           ("beta", Except.error "boom")]).1.by_source.map
          (fun p => p.2.scraped)).sum :=
  ⟨(scrape_all_stats_accounting false []
      [("alpha", Except.ok [JobData.mk "Dev" "ACME" (some "NYC") "" "" "a"]),
       ("beta", Except.error "boom")]).1
      ("alpha", SourceStats.mk 1 1 0 none) (by decide),
   (scrape_all_stats_accounting false []
      [("alpha", Except.ok [JobData.mk "Dev" "ACME" (some "NYC") "" "" "a"]),
       ("beta", Except.error "boom")]).2.1⟩

/-- The pacing behaviour the code actually has, as a per-source trace
specification: a successful source is followed by the `time.sleep(1)`
pacing delay, a failed source is not (the `except` branch skips it). -/
def pacingSpecTrace
    (sources : List (String × Except String (List JobData))) :
    List ScrapeEvent :=
  sources.flatMap fun s =>
    match s.2 with
    | .ok _ => [.scrape s.1, .sleep]
    | .error _ => [.scrape s.1]

/-- Counterexample for C6: with a failing first source, the next source's
adapter is invoked immediately after the failure — the event right after
`scrape "alpha"` is `scrape "beta"`, with no delay in between (the only
sleep comes after the successful `beta`). -/
theorem scrape_all_no_delay_after_failed_source :
    (scrape_all false [] [("alpha", Except.error "boom"),
        ("beta", Except.ok ([] : List JobData))]).2.2
      = [ScrapeEvent.scrape "alpha", ScrapeEvent.scrape "beta",
         ScrapeEvent.sleep]
    ∧ ((scrape_all false [] [("alpha", Except.error "boom"),
        ("beta", Except.ok ([] : List JobData))]).2.2)[1]?
      = some (ScrapeEvent.scrape "beta") := by
  exact ⟨by decide, by decide⟩

/-- C6 (amended): the fixed inter-source pacing delay runs after each
**successful** source (including the last one) before the next source's
adapter is invoked; a **failed** source is followed immediately by the
next invocation, with no delay. -/
theorem scrape_all_pacing (us_only : Bool) (store : List Job)
    (sources : List (String × Except String (List JobData))) :
    (scrape_all us_only store sources).2.2 = pacingSpecTrace sources := by
  induction sources generalizing store with
  | nil => simp [scrape_all, pacingSpecTrace]
  | cons hd tl ih =>
    obtain ⟨nm, res⟩ := hd
    cases res with
    | ok jobsRaw =>
      rcases hp : processJobs store
          (if us_only then filter_us_jobs jobsRaw else jobsRaw)
        with ⟨nc, dc, store₁⟩
      have ihs := ih store₁
      rcases hs : scrape_all us_only store₁ tl with ⟨stats, store₂, trace⟩
      rw [hs] at ihs
      have ihs' : trace = pacingSpecTrace tl := by simpa using ihs
      simp [scrape_all, hp, hs, pacingSpecTrace, ihs']
    | error e =>
      have ihs := ih store
      rcases hs : scrape_all us_only store tl with ⟨stats, store₂, trace⟩
      rw [hs] at ihs
      have ihs' : trace = pacingSpecTrace tl := by simpa using ihs
      simp [scrape_all, hs, pacingSpecTrace, ihs']

/-- C4: when exactly one selected source's adapter raises (all sources
before and after it succeed), the run still completes — `scrape_all` is a
total function — and its outcome is exactly the outcome of the run without
the failing source, except that the failing source's entry, zeroed and
carrying the error string, is spliced into `by_source` at its position:
the final store, the totals, and every other source's per-source counts
are untouched by the failure. -/
theorem scrape_all_failure_isolation (us_only : Bool)
    (pre post : List (String × Except String (List JobData)))
    (nm msg : String) (store : List Job)
    (hpre : ∀ x ∈ pre, ∃ jobs, x.2 = Except.ok jobs)
    (hpost : ∀ x ∈ post, ∃ jobs, x.2 = Except.ok jobs) :
    (scrape_all us_only store
        (pre ++ (nm, Except.error msg) :: post)).1.total_scraped
      = (scrape_all us_only store (pre ++ post)).1.total_scraped
    ∧ (scrape_all us_only store
        (pre ++ (nm, Except.error msg) :: post)).1.total_new
      = (scrape_all us_only store (pre ++ post)).1.total_new
    ∧ (scrape_all us_only store
        (pre ++ (nm, Except.error msg) :: post)).1.total_duplicates
      = (scrape_all us_only store (pre ++ post)).1.total_duplicates
    ∧ (scrape_all us_only store
        (pre ++ (nm, Except.error msg) :: post)).2.1
      = (scrape_all us_only store (pre ++ post)).2.1
    ∧ (scrape_all us_only store
        (pre ++ (nm, Except.error msg) :: post)).1.by_source
      = ((scrape_all us_only store (pre ++ post)).1.by_source).take pre.length
        ++ (nm, SourceStats.mk 0 0 0 (some msg))
          :: ((scrape_all us_only store (pre ++ post)).1.by_source).drop
              pre.length := by
  clear hpre hpost
  induction pre generalizing store with
  | nil =>
    rcases hs : scrape_all us_only store post with ⟨stats, store₂, trace⟩
    simp [scrape_all, hs]
  | cons hd tl ih =>
    obtain ⟨n₀, r₀⟩ := hd
    cases r₀ with
    | ok jobsRaw =>
      rcases hp : processJobs store
          (if us_only then filter_us_jobs jobsRaw else jobsRaw)
        with ⟨nc, dc, store₁⟩
      rcases hs₁ : scrape_all us_only store₁ (tl ++ (nm, Except.error msg) :: post)
        with ⟨statsF, storeF, traceF⟩
      rcases hs₂ : scrape_all us_only store₁ (tl ++ post)
        with ⟨statsR, storeR, traceR⟩
      have ihs := ih store₁
      rw [hs₁, hs₂] at ihs
      simp only at ihs
      have step₁ : scrape_all us_only store
          (((n₀, Except.ok jobsRaw) :: tl) ++ (nm, Except.error msg) :: post)
          = (⟨(if us_only then filter_us_jobs jobsRaw else jobsRaw).length
                + statsF.total_scraped,
              nc + statsF.total_new, dc + statsF.total_duplicates,
              (n₀, ⟨(if us_only then filter_us_jobs jobsRaw else jobsRaw).length,
                nc, dc, none⟩) :: statsF.by_source⟩,
             storeF, .scrape n₀ :: .sleep :: traceF) := by
        simp only [List.cons_append, scrape_all, List.append_eq, hp, hs₁]
      have step₂ : scrape_all us_only store
          (((n₀, Except.ok jobsRaw) :: tl) ++ post)
          = (⟨(if us_only then filter_us_jobs jobsRaw else jobsRaw).length
                + statsR.total_scraped,
              nc + statsR.total_new, dc + statsR.total_duplicates,
              (n₀, ⟨(if us_only then filter_us_jobs jobsRaw else jobsRaw).length,
                nc, dc, none⟩) :: statsR.by_source⟩,
             storeR, .scrape n₀ :: .sleep :: traceR) := by
        simp only [List.cons_append, scrape_all, List.append_eq, hp, hs₂]
      rw [step₁, step₂]
      simp only [List.length_cons, List.take_succ_cons, List.drop_succ_cons]
      exact ⟨by simp [ihs.1], by simp [ihs.2.1], by simp [ihs.2.2.1],
        by simp [ihs.2.2.2.1], by simp [ihs.2.2.2.2]⟩
    | error e =>
      rcases hs₁ : scrape_all us_only store (tl ++ (nm, Except.error msg) :: post)
        with ⟨statsF, storeF, traceF⟩
      rcases hs₂ : scrape_all us_only store (tl ++ post)
        with ⟨statsR, storeR, traceR⟩
      have ihs := ih store
      rw [hs₁, hs₂] at ihs
      simp only at ihs
      have step₁ : scrape_all us_only store
          (((n₀, Except.error e) :: tl) ++ (nm, Except.error msg) :: post)
          = ({ statsF with by_source :=
                (n₀, ⟨0, 0, 0, some e⟩) :: statsF.by_source },
             storeF, .scrape n₀ :: traceF) := by
        simp only [List.cons_append, scrape_all, List.append_eq, hs₁]
      have step₂ : scrape_all us_only store
          (((n₀, Except.error e) :: tl) ++ post)
          = ({ statsR with by_source :=
                (n₀, ⟨0, 0, 0, some e⟩) :: statsR.by_source },
             storeR, .scrape n₀ :: traceR) := by
        simp only [List.cons_append, scrape_all, List.append_eq, hs₂]
      rw [step₁, step₂]
      simp only [List.length_cons, List.take_succ_cons, List.drop_succ_cons]
      exact ⟨by simp [ihs.1], by simp [ihs.2.1], by simp [ihs.2.2.1],
        by simp [ihs.2.2.2.1], by simp [ihs.2.2.2.2]⟩

/-- Witness for C4: three sources where only the middle one fails. -/
theorem scrape_all_failure_isolation_witness :
    (scrape_all false []
        ([("alpha", Except.ok [JobData.mk "Dev" "ACME" (some "NYC") "" "" "a"])]
          ++ ("beta", Except.error "boom")
            :: [("gamma", Except.ok ([] : List JobData))])).1.total_scraped
      = (scrape_all false []
          ([("alpha", Except.ok [JobData.mk "Dev" "ACME" (some "NYC") "" "" "a"])]
            ++ [("gamma", Except.ok ([] : List JobData))])).1.total_scraped
    ∧ (scrape_all false []
        ([("alpha", Except.ok [JobData.mk "Dev" "ACME" (some "NYC") "" "" "a"])]
          ++ ("beta", Except.error "boom")
            :: [("gamma", Except.ok ([] : List JobData))])).1.total_new
      = (scrape_all false []
          ([("alpha", Except.ok [JobData.mk "Dev" "ACME" (some "NYC") "" "" "a"])]
            ++ [("gamma", Except.ok ([] : List JobData))])).1.total_new
    ∧ (scrape_all false []
        ([("alpha", Except.ok [JobData.mk "Dev" "ACME" (some "NYC") "" "" "a"])]
          ++ ("beta", Except.error "boom")
            :: [("gamma", Except.ok ([] : List JobData))])).1.total_duplicates
      = (scrape_all false []
          ([("alpha", Except.ok [JobData.mk "Dev" "ACME" (some "NYC") "" "" "a"])]
            ++ [("gamma", Except.ok ([] : List JobData))])).1.total_duplicates
    ∧ (scrape_all false []
        ([("alpha", Except.ok [JobData.mk "Dev" "ACME" (some "NYC") "" "" "a"])]
          ++ ("beta", Except.error "boom")
            :: [("gamma", Except.ok ([] : List JobData))])).2.1
      = (scrape_all false []
          ([("alpha", Except.ok [JobData.mk "Dev" "ACME" (some "NYC") "" "" "a"])]
            ++ [("gamma", Except.ok ([] : List JobData))])).2.1
    ∧ (scrape_all false []
        ([("alpha", Except.ok [JobData.mk "Dev" "ACME" (some "NYC") "" "" "a"])]
          ++ ("beta", Except.error "boom")
            :: [("gamma", Except.ok ([] : List JobData))])).1.by_source
      = ((scrape_all false []
          ([("alpha", Except.ok [JobData.mk "Dev" "ACME" (some "NYC") "" "" "a"])]
            ++ [("gamma", Except.ok ([] : List JobData))])).1.by_source).take 1
        ++ ("beta", SourceStats.mk 0 0 0 (some "boom"))
          :: ((scrape_all false []
              ([("alpha", Except.ok [JobData.mk "Dev" "ACME" (some "NYC") "" "" "a"])]
                ++ [("gamma", Except.ok ([] : List JobData))])).1.by_source).drop 1 :=
  scrape_all_failure_isolation false
    [("alpha", Except.ok [JobData.mk "Dev" "ACME" (some "NYC") "" "" "a"])]
    [("gamma", Except.ok ([] : List JobData))] "beta" "boom" []
    (by intro x hx; rw [List.mem_singleton.mp hx]; exact ⟨_, rfl⟩)
    (by intro x hx; rw [List.mem_singleton.mp hx]; exact ⟨_, rfl⟩)

/-- C7: `get_job_details` returns `None` exactly when the id resolves to no
stored job; when the job exists the caller always receives a detail view
(never an error — the function is total); and when the detail fetch from
the source URL fails on a cache miss, the returned description is the
stored preview text suffixed with the explicit
`"... (Full details unavailable)"` marker, tagged `from_cache = false`. -/
theorem get_job_details_total_with_fallback
    (fetch : String → String → Option String) (now : Int)
    (store : List JobListing) (jid : Nat) (uc : Bool) :
    ((JobBoardAPI.get_job_details fetch now store jid uc).1 = none
      ↔ store.find? (fun j => j.id == jid) = none)
    ∧ (∀ job, store.find? (fun j => j.id == jid) = some job →
        ∃ v, (JobBoardAPI.get_job_details fetch now store jid uc).1 = some v)
    ∧ (∀ job, store.find? (fun j => j.id == jid) = some job →
        (uc && cachedTruthy job) = false →
        fetch job.source_url job.source = none →
        (JobBoardAPI.get_job_details fetch now store jid uc).1 =
          some { ({ job with last_accessed := some now,
                             view_count := job.view_count + 1 } : JobListing).to_dict with
                   description :=
                     job.preview_text ++ "... (Full details unavailable)",
                   from_cache := false,
                   view_count := job.view_count + 1 }) := by
  refine ⟨⟨?_, ?_⟩, ?_, ?_⟩
  · intro h
    rcases hf : store.find? (fun j => j.id == jid) with _ | job
    · exact hf
    · exfalso
      simp only [JobBoardAPI.get_job_details, hf] at h
      split at h
      · simp at h
      · split at h <;> simp at h
  · intro h
    simp [JobBoardAPI.get_job_details, h]
  · intro job hf
    simp only [JobBoardAPI.get_job_details, hf]
    split
    · exact ⟨_, rfl⟩
    · split <;> exact ⟨_, rfl⟩
  · intro job hf hmiss hfetch
    have hmiss' : (uc && cachedTruthy { job with last_accessed := some now,
                                                 view_count := job.view_count + 1 })
        = false := hmiss
    simp only [JobBoardAPI.get_job_details, hf, hmiss', Bool.false_eq_true,
      if_false]
    have hfetch' : fetch ({ job with last_accessed := some now,
                                     view_count := job.view_count + 1 } : JobListing).source_url
        ({ job with last_accessed := some now,
                    view_count := job.view_count + 1 } : JobListing).source
        = none := hfetch
    simp only [hfetch']

/-- Witness for C7: a stored job whose fetch fails falls back to
`preview_text + "... (Full details unavailable)"` with `from_cache = false`. -/
theorem get_job_details_total_with_fallback_witness :
    (JobBoardAPI.get_job_details (fun _ _ => none) 5
        [JobListing.mk 1 "j1" "T" "C" none none "src" "u" none false none
          "prev" none 0 none none] 1 true).1 =
      some { ({ JobListing.mk 1 "j1" "T" "C" none none "src" "u" none false
                  none "prev" none 0 none none with
                  last_accessed := some 5,
                  view_count := (JobListing.mk 1 "j1" "T" "C" none none "src"
                    "u" none false none "prev" none 0 none
                    none).view_count + 1 } : JobListing).to_dict with
               description := (JobListing.mk 1 "j1" "T" "C" none none "src"
                   "u" none false none "prev" none 0 none
                   none).preview_text ++ "... (Full details unavailable)",
               from_cache := false,
               view_count := (JobListing.mk 1 "j1" "T" "C" none none "src"
                 "u" none false none "prev" none 0 none
                 none).view_count + 1 } :=
  (get_job_details_total_with_fallback (fun _ _ => none) 5
      [JobListing.mk 1 "j1" "T" "C" none none "src" "u" none false none
        "prev" none 0 none none] 1 true).2.2
    (JobListing.mk 1 "j1" "T" "C" none none "src" "u" none false none
      "prev" none 0 none none) rfl (by decide) rfl

/-- Counterexample for C8: when the fetched description is the empty
string, the first call persists `""` into the cache, but the second call
with `use_cache = true` treats the empty cached description as absent
(Python truthiness), fetches again, and returns `from_cache = false` —
not `from_cache = true` without a fetch, as the claim requires. -/
theorem get_job_details_empty_description_refetches :
    ((JobBoardAPI.get_job_details (fun _ _ => some "") 20
        ((JobBoardAPI.get_job_details (fun _ _ => some "") 10
          [JobListing.mk 1 "j" "T" "C" none none "s" "u" none false none
            "p" none 0 none none] 1 true).2.1) 1 true).1).map
        DetailView.from_cache = some false
    ∧ (JobBoardAPI.get_job_details (fun _ _ => some "") 20
        ((JobBoardAPI.get_job_details (fun _ _ => some "") 10
          [JobListing.mk 1 "j" "T" "C" none none "s" "u" none false none
            "p" none 0 none none] 1 true).2.1) 1 true).2.2 = 1
    ∧ ((JobBoardAPI.get_job_details (fun _ _ => some "") 10
        [JobListing.mk 1 "j" "T" "C" none none "s" "u" none false none
          "p" none 0 none none] 1 true).2.1).map
        JobListing.cached_description = [some ""] := by
  exact ⟨by decide, by decide, by decide⟩

/-- The row update `track_view` applies to the viewed row. -/
def viewBumped (now : Int) (j : JobListing) : JobListing :=
  { j with last_accessed := some now, view_count := j.view_count + 1 }

/-- The row update `cache_description` applies to the fetched row. -/
def withCache (d : String) (now : Int) (j : JobListing) : JobListing :=
  { j with cached_description := some d, cache_date := some now }

/-- C8 (amended): for an existing job with an empty cache whose fetch
succeeds with a **non-empty** description, the first call fetches exactly
once, returns the fetched description with `from_cache = false`, bumps the
view counter by 1, stamps `last_accessed`, and persists the description
into the cache; a second call with `use_cache = true` performs no fetch
and returns the same description with `from_cache = true`, bumping the
view counter by 1 again.  (When the fetched description is empty the
cached value is falsy and the second call re-fetches.) -/
theorem get_job_details_cache_aside
    (fetch : String → String → Option String) (now₁ now₂ : Int)
    (store : List JobListing) (jid : Nat) (uc₁ : Bool)
    (job : JobListing) (d : String)
    (hfind : store.find? (fun j => j.id == jid) = some job)
    (hcache : job.cached_description = none)
    (hfetch : fetch job.source_url job.source = some d)
    (hd : d ≠ "") :
    (JobBoardAPI.get_job_details fetch now₁ store jid uc₁).1 =
      some { (viewBumped now₁ job).to_dict with
               description := d, from_cache := false,
               view_count := job.view_count + 1 }
    ∧ (JobBoardAPI.get_job_details fetch now₁ store jid uc₁).2.2 = 1
    ∧ ((JobBoardAPI.get_job_details fetch now₁ store jid uc₁).2.1).find?
        (fun j => j.id == jid) = some (withCache d now₁ (viewBumped now₁ job))
    ∧ (JobBoardAPI.get_job_details fetch now₂
        ((JobBoardAPI.get_job_details fetch now₁ store jid uc₁).2.1)
        jid true).1 =
      some { (viewBumped now₂ (withCache d now₁ (viewBumped now₁ job))).to_dict with
               description := d, from_cache := true,
               view_count := job.view_count + 1 + 1 }
    ∧ (JobBoardAPI.get_job_details fetch now₂
        ((JobBoardAPI.get_job_details fetch now₁ store jid uc₁).2.1)
        jid true).2.2 = 0 := by
  have hmiss : (uc₁ && cachedTruthy { job with last_accessed := some now₁, view_count := job.view_count + 1 }) = false := by
    simp [cachedTruthy, hcache]
  have hfetch' : fetch ({ job with last_accessed := some now₁, view_count := job.view_count + 1 } : JobListing).source_url ({ job with last_accessed := some now₁, view_count := job.view_count + 1 } : JobListing).source = some d := hfetch
  have hcall₁ : JobBoardAPI.get_job_details fetch now₁ store jid uc₁ =
      (some { ({ job with last_accessed := some now₁, view_count := job.view_count + 1 } : JobListing).to_dict with
                description := d, from_cache := false,
                view_count := job.view_count + 1 },
       JobBoardDatabase.cache_description
         (JobBoardDatabase.track_view store jid now₁) jid d now₁, 1) := by
    simp only [JobBoardAPI.get_job_details, hfind, hmiss, Bool.false_eq_true,
      if_false, hfetch']
  have hstore₁ : (JobBoardDatabase.cache_description
      (JobBoardDatabase.track_view store jid now₁) jid d now₁).find?
        (fun j => j.id == jid) =
      some { job with last_accessed := some now₁, view_count := job.view_count + 1, cached_description := some d, cache_date := some now₁ } := by
    have h₁ := find?_replaceFirstById store jid
      (fun j => { j with last_accessed := some now₁, view_count := j.view_count + 1 }) job
      (fun x => rfl) hfind
    have h₂ := find?_replaceFirstById _ jid
      (fun j => { j with cached_description := some d, cache_date := some now₁ })
      ({ job with last_accessed := some now₁, view_count := job.view_count + 1 })
      (fun x => rfl) h₁
    exact h₂
  have hhit : (true && cachedTruthy { job with last_accessed := some now₂, view_count := job.view_count + 1 + 1, cached_description := some d, cache_date := some now₁ }) = true := by
    simp [cachedTruthy, hd]
  have hcall₂ : JobBoardAPI.get_job_details fetch now₂
      (JobBoardDatabase.cache_description
        (JobBoardDatabase.track_view store jid now₁) jid d now₁) jid true =
      (some { ({ job with last_accessed := some now₂, view_count := job.view_count + 1 + 1, cached_description := some d, cache_date := some now₁ } : JobListing).to_dict with
                description := d, from_cache := true,
                view_count := job.view_count + 1 + 1 },
       JobBoardDatabase.track_view
         (JobBoardDatabase.cache_description
           (JobBoardDatabase.track_view store jid now₁) jid d now₁) jid now₂,
       0) := by
    simp only [JobBoardAPI.get_job_details, hstore₁, hhit, if_true]
    rfl
  rw [hcall₁]
  refine ⟨rfl, rfl, hstore₁, ?_, ?_⟩
  · simp only
    rw [hcall₂]
    rfl
  · simp only
    rw [hcall₂]

/-- Witness for C8 (amended): a concrete job, empty cache, fetch returning
`"D"`; two calls behave as the cache-aside contract states. -/
theorem get_job_details_cache_aside_witness :
    (JobBoardAPI.get_job_details (fun _ _ => some "D") 10
        [JobListing.mk 1 "j" "T" "C" none none "s" "u" none false none "p"
          none 0 none none] 1 true).1 =
      some { (viewBumped 10 (JobListing.mk 1 "j" "T" "C" none none "s" "u"
                none false none "p" none 0 none none)).to_dict with
               description := "D", from_cache := false,
               view_count := (JobListing.mk 1 "j" "T" "C" none none "s" "u"
                 none false none "p" none 0 none none).view_count + 1 }
    ∧ (JobBoardAPI.get_job_details (fun _ _ => some "D") 10
        [JobListing.mk 1 "j" "T" "C" none none "s" "u" none false none "p"
          none 0 none none] 1 true).2.2 = 1
    ∧ ((JobBoardAPI.get_job_details (fun _ _ => some "D") 10
        [JobListing.mk 1 "j" "T" "C" none none "s" "u" none false none "p"
          none 0 none none] 1 true).2.1).find? (fun j => j.id == 1) =
      some (withCache "D" 10 (viewBumped 10 (JobListing.mk 1 "j" "T" "C"
        none none "s" "u" none false none "p" none 0 none none)))
    ∧ (JobBoardAPI.get_job_details (fun _ _ => some "D") 20
        ((JobBoardAPI.get_job_details (fun _ _ => some "D") 10
          [JobListing.mk 1 "j" "T" "C" none none "s" "u" none false none "p"
            none 0 none none] 1 true).2.1) 1 true).1 =
      some { (viewBumped 20 (withCache "D" 10 (viewBumped 10
                (JobListing.mk 1 "j" "T" "C" none none "s" "u" none false
                  none "p" none 0 none none)))).to_dict with
               description := "D", from_cache := true,
               view_count := (JobListing.mk 1 "j" "T" "C" none none "s" "u"
                 none false none "p" none 0 none none).view_count + 1 + 1 }
    ∧ (JobBoardAPI.get_job_details (fun _ _ => some "D") 20
        ((JobBoardAPI.get_job_details (fun _ _ => some "D") 10
          [JobListing.mk 1 "j" "T" "C" none none "s" "u" none false none "p"
            none 0 none none] 1 true).2.1) 1 true).2.2 = 0 :=
  get_job_details_cache_aside (fun _ _ => some "D") 10 20
    [JobListing.mk 1 "j" "T" "C" none none "s" "u" none false none "p"
      none 0 none none] 1 true
    (JobListing.mk 1 "j" "T" "C" none none "s" "u" none false none "p"
      none 0 none none) "D" rfl rfl rfl (by decide)
